import Mathlib

/-!
Verification of the debounced event queue and session state machine of the
nxs-go-telegram library (package `tg`: queue.go, redis.go, session.go,
updatechain.go, telegram.go).

Modelling conventions:
* Redis hashes (`sess`, `meta`) and the per-identity update lists
  (`updates:<chat>:<user>`) are modelled as association lists keyed by the
  `(chatID, userID)` pair; the Go code keys them by the string
  `"<chatID>:<userID>"`, which is injective in the pair, so the keying is
  equivalent.  Store operations are modelled as infallible (connection
  errors are out of scope); every other error path of the Go code is kept.
* Go `time.Time` values are modelled as integers; `time.Now().After(t)`
  is the strict comparison `now > t`.
* gob encoding/decoding of slot values is modelled by an abstract `Codec`
  (an encode function and a partial decode function), matching the
  encoder's contract.
* Telegram message delivery (`Telegram.SendMessage`) is modelled by a
  counter supplying fresh message ids: sending with `messageID = 0`
  creates a message with a fresh id, sending with `messageID ≠ 0` edits
  the message with that id.  The log of sent messages is kept in `Env`.
* The recursion of `Session.stateSwitch` is modelled with explicit fuel
  (`none` = fuel exhausted); the Go function has no such bound.
-/

namespace Tg

/-! ## Association lists (model of Redis hashes and key lookup) -/

/-- Lookup of the first binding of `key` in an association list. -/
def alGet {κ ν : Type} [DecidableEq κ] : List (κ × ν) → κ → Option ν
  | [], _ => none
  | (k, v) :: rest, key => if k = key then some v else alGet rest key

/-- Set `key` to `v` (replace the first binding, or append). Models `HSET`. -/
def alSet {κ ν : Type} [DecidableEq κ] : List (κ × ν) → κ → ν → List (κ × ν)
  | [], key, v => [(key, v)]
  | (k, w) :: rest, key, v =>
    if k = key then (k, v) :: rest else (k, w) :: alSet rest key v

/-- Delete every binding of `key`. Models `HDEL` / `DEL`. -/
def alDel {κ ν : Type} [DecidableEq κ] : List (κ × ν) → κ → List (κ × ν)
  | [], _ => []
  | (k, w) :: rest, key =>
    if k = key then alDel rest key else (k, w) :: alDel rest key

theorem alGet_alSet_self {κ ν : Type} [DecidableEq κ] (l : List (κ × ν)) (k : κ) (v : ν) :
    alGet (alSet l k v) k = some v := by
  induction l with
  | nil => simp [alGet, alSet]
  | cons p rest ih =>
    by_cases h : p.1 = k
    · simp [alSet, alGet, h]
    · simp [alSet, alGet, h, ih]

theorem alGet_alSet_ne {κ ν : Type} [DecidableEq κ] (l : List (κ × ν)) (k k' : κ) (v : ν)
    (h : k' ≠ k) : alGet (alSet l k v) k' = alGet l k' := by
  have hkk : ¬ k = k' := fun hh => h hh.symm
  induction l with
  | nil => simp [alGet, alSet, hkk]
  | cons p rest ih =>
    by_cases hp : p.1 = k
    · simp [alSet, alGet, hp, hkk]
    · by_cases hp' : p.1 = k'
      · simp [alSet, alGet, hp, hp', h]
      · simp [alSet, alGet, hp, hp', ih]

theorem alGet_alDel_self {κ ν : Type} [DecidableEq κ] (l : List (κ × ν)) (k : κ) :
    alGet (alDel l k) k = none := by
  induction l with
  | nil => simp [alGet, alDel]
  | cons p rest ih =>
    by_cases h : p.1 = k
    · simp [alDel, h, ih]
    · simp [alDel, alGet, h, ih]

theorem alGet_alDel_ne {κ ν : Type} [DecidableEq κ] (l : List (κ × ν)) (k k' : κ)
    (h : k' ≠ k) : alGet (alDel l k) k' = alGet l k' := by
  have hkk : ¬ k = k' := fun hh => h hh.symm
  induction l with
  | nil => simp [alDel]
  | cons p rest ih =>
    by_cases hp : p.1 = k
    · simp [alDel, alGet, hp, hkk, ih]
    · by_cases hp' : p.1 = k'
      · simp [alDel, alGet, hp, hp', h]
      · simp [alDel, alGet, hp, hp', ih]

theorem alDel_of_alGet_none {κ ν : Type} [DecidableEq κ] (l : List (κ × ν)) (k : κ)
    (h : alGet l k = none) : alDel l k = l := by
  induction l with
  | nil => simp [alDel]
  | cons p rest ih =>
    by_cases hp : p.1 = k
    · simp [alGet, hp] at h
    · simp [alGet, hp] at h
      simp [alDel, hp, ih h]

/-! ## Update model (updatechain.go)

Telegram updates are modelled with the fields the library reads: the
optional `Message` and `CallbackQuery` parts, each carrying the chat id,
the issuing user and the kind-specific payload. -/

/-- Sender of a message or callback (`tgbotapi.User`). -/
structure MsgUser where
  ID : Int
  UserName : String
deriving DecidableEq, Repr

/-- Chat of a message (`tgbotapi.Chat`). -/
structure MsgChat where
  ID : Int
deriving DecidableEq, Repr

/-- Message part of an update (`tgbotapi.Message`, the fields used). -/
structure Message where
  MessageID : Int
  From : MsgUser
  Chat : MsgChat
  Text : String
deriving DecidableEq, Repr

/-- Callback part of an update (`tgbotapi.CallbackQuery`, the fields used). -/
structure CallbackQuery where
  ID : String
  From : MsgUser
  Message : Message
  Data : String
deriving DecidableEq, Repr

/-- One inbound update (`Update`, from updatechain.go). -/
structure Update where
  Message : Option Message
  CallbackQuery : Option CallbackQuery
deriving DecidableEq, Repr

/-- Kind of an update chain (`UpdateType`). -/
inductive UpdateType where
  | none
  | unknown
  | message
  | callback
deriving DecidableEq, Repr

/-- Model of `updateTypeEltGet`: classify one update element. -/
def updateTypeEltGet (update : Update) : UpdateType :=
  match update.Message with
  | some _ => UpdateType.message
  | Option.none =>
    match update.CallbackQuery with
    | some _ => UpdateType.callback
    | Option.none => UpdateType.unknown

/-- Model of `updateIDsGet`: chat and user id of one update element. -/
def updateIDsGet (update : Update) : Int × Int :=
  match update.Message with
  | some m => (m.Chat.ID, m.From.ID)
  | Option.none =>
    match update.CallbackQuery with
    | some c => (c.Message.Chat.ID, c.From.ID)
    | Option.none => (0, 0)

/-- Chain of homogeneous updates (`UpdateChain`). -/
structure UpdateChain where
  updateType : UpdateType
  updates : List Update
deriving DecidableEq, Repr

/-- One iteration of the loop body of `UpdateChain.add` (updatechain.go,
current version): unknown elements are skipped, the first classifiable
element fixes the chain type, elements of a different type are skipped,
matching elements are appended. -/
def UpdateChain.addElt (uc : UpdateChain) (u : Update) : UpdateChain :=
  let t := updateTypeEltGet u
  if t = UpdateType.unknown then uc
  else
    let uc1 := if uc.updateType = UpdateType.none then { uc with updateType := t } else uc
    if uc1.updateType ≠ t then uc1
    else { uc1 with updates := uc1.updates ++ [u] }

/-- Model of `UpdateChain.add`: fold the loop body over the new updates. -/
def UpdateChain.add (uc : UpdateChain) (updates : List Update) : UpdateChain :=
  updates.foldl UpdateChain.addElt uc

/-! ## Session data and the Redis-backed store (session.go, redis.go) -/

/-- Session state value (`SessionState`), wrapping a bare string. -/
structure SessionState where
  state : String
deriving DecidableEq, Repr

/-- The reserved `destroy` session state. -/
def sessionDestroy : SessionState := SessionState.mk "internal:destroy"

/-- The reserved `break` session state. -/
def sessionBreak : SessionState := SessionState.mk ""

/-- Model of `SessStateBreak`. -/
def SessStateBreak : SessionState := sessionBreak

/-- Model of `SessStateDestroy`. -/
def SessStateDestroy : SessionState := sessionDestroy

/-- Model of `SessState`: a user state name is prefixed with `user:`. -/
def SessState (stateName : String) : SessionState :=
  SessionState.mk ("user:" ++ stateName)

/-- Serialized bytes (`[]byte`), as produced by the gob encoder. -/
abbrev Bytes := List Nat

/-- Per-conversation session record (`data` in session.go). -/
structure data where
  State : String
  Slots : List (String × Bytes)
deriving DecidableEq, Repr

/-- The shared Redis store: the `sess` hash, the `meta` hash and the
per-identity `updates` lists, each keyed by `(chatID, userID)`. -/
structure RedisState where
  sess : List ((Int × Int) × data)
  meta : List ((Int × Int) × Int)
  updates : List ((Int × Int) × List Update)
deriving Repr

/-- Model of `redis.sessSave`. -/
def sessSave (r : RedisState) (chatID userID : Int) (d : data) : RedisState :=
  { r with sess := alSet r.sess (chatID, userID) d }

/-- Model of `redis.sessGet`: the record and an existence flag. -/
def sessGet (r : RedisState) (chatID userID : Int) : data × Bool :=
  match alGet r.sess (chatID, userID) with
  | Option.none => (data.mk "" [], false)
  | some d => (d, true)

/-- Model of `redis.sessDel`: deletes the session record, then the queue
meta and the queued updates of the identity. -/
def sessDel (r : RedisState) (chatID userID : Int) : RedisState :=
  { sess := alDel r.sess (chatID, userID)
    meta := alDel r.meta (chatID, userID)
    updates := alDel r.updates (chatID, userID) }

/-! ## Queue (queue.go, redis.go) -/

/-- Meta record of one queued conversation (`queueMeta`). -/
structure queueMeta where
  chatID : Int
  userID : Int
  waitTill : Int
deriving DecidableEq, Repr

/-- Model of `redis.queueMetaAdd` (`HSET`, unconditional overwrite). -/
def queueMetaAdd (r : RedisState) (chatID userID : Int) (waitTill : Int) : RedisState :=
  { r with meta := alSet r.meta (chatID, userID) waitTill }

/-- Model of `redis.queueMetasGet` (`HGETALL` of the `meta` hash). -/
def queueMetasGet (r : RedisState) : List queueMeta :=
  r.meta.map (fun p => queueMeta.mk p.1.1 p.1.2 p.2)

/-- Model of `redis.queueMetaDel` (`HDEL`): the number of keys actually
deleted (0 or 1) together with the new store state. -/
def queueMetaDel (r : RedisState) (chatID userID : Int) : Int × RedisState :=
  ((if (alGet r.meta (chatID, userID)).isSome then 1 else 0),
   { r with meta := alDel r.meta (chatID, userID) })

/-- Model of `redis.queueUpdateAdd` (`RPUSH`). -/
def queueUpdateAdd (r : RedisState) (chatID userID : Int) (update : Update) : RedisState :=
  { r with updates :=
      alSet r.updates (chatID, userID) (((alGet r.updates (chatID, userID)).getD []) ++ [update]) }

/-- Model of `redis.queueUpdatesGet` (`LLEN` + repeated `LPOP`): drains
and returns the identity's whole update list. -/
def queueUpdatesGet (r : RedisState) (chatID userID : Int) : List Update × RedisState :=
  ((alGet r.updates (chatID, userID)).getD [],
   { r with updates := alDel r.updates (chatID, userID) })

/-- Model of `queue.add` (queue.go): write the meta with
`waitTill = now + waitInterval`, then append the update to the buffer. -/
def queueAdd (r : RedisState) (chatID userID : Int) (now waitInterval : Int)
    (update : Update) : RedisState :=
  queueUpdateAdd (queueMetaAdd r chatID userID (now + waitInterval)) chatID userID update

/-- Model of the scan loop of `queue.chainGet`.  The scanned list `qm` is
the `HGETALL` snapshot; the store `r` may already have been mutated by a
concurrent claimer, so a snapshot entry can be ready yet no longer
present (the meta-deletion then reports `0`). -/
def chainGetLoop : List queueMeta → RedisState → Int → Except String (UpdateChain × RedisState)
  | [], r, _ => Except.ok (UpdateChain.mk UpdateType.none [], r)
  | m :: rest, r, now =>
    if now > m.waitTill then
      let (i, r1) := queueMetaDel r m.chatID m.userID
      if i = 0 then chainGetLoop rest r1 now
      else
        let (u, r2) := queueUpdatesGet r1 m.chatID m.userID
        Except.ok (UpdateChain.add (UpdateChain.mk UpdateType.none []) u, r2)
    else chainGetLoop rest r now

/-- Model of `queue.chainGet`: scan the current metas. -/
def chainGet (r : RedisState) (now : Int) : Except String (UpdateChain × RedisState) :=
  chainGetLoop (queueMetasGet r) r now

/-! ## Slot operations and state persistence (session.go) -/

/-- Abstract gob codec for slot values: a total encoder and a partial
decoder, matching the `encoding/gob` contract used by `SlotSave` and
`SlotGet`. -/
structure Codec (α : Type) where
  enc : α → Bytes
  dec : Bytes → Option α

/-- Model of `Session.SlotSave`: requires an existing session record,
then stores the encoded value under the slot name. -/
def SlotSave {α : Type} (r : RedisState) (chatID userID : Int) (cd : Codec α)
    (slot : String) (v : α) : RedisState × Except String Unit :=
  let (d, e) := sessGet r chatID userID
  if e = false then (r, Except.error "session does not exist")
  else
    let d1 := { d with Slots := alSet d.Slots slot (cd.enc v) }
    (sessSave r chatID userID d1, Except.ok ())

/-- Model of `Session.SlotGet`: `Except.ok (some v)` models the Go return
`(true, nil)` with `v` decoded into the out-parameter, `Except.ok none`
models `(false, nil)` (slot absent), and `Except.error` the error
returns. -/
def SlotGet {α : Type} (r : RedisState) (chatID userID : Int) (cd : Codec α)
    (slot : String) : Except String (Option α) :=
  let (d, e) := sessGet r chatID userID
  if e = false then Except.error "session does not exist"
  else
    match alGet d.Slots slot with
    | Option.none => Except.ok Option.none
    | some ds =>
      match cd.dec ds with
      | Option.none => Except.error "gob decode error"
      | some v => Except.ok (some v)

/-- Model of `Session.SlotDel`: requires an existing session record, then
removes the slot. -/
def SlotDel (r : RedisState) (chatID userID : Int) (slot : String) :
    RedisState × Except String Unit :=
  let (d, e) := sessGet r chatID userID
  if e = false then (r, Except.error "session does not exist")
  else (sessSave r chatID userID { d with Slots := alDel d.Slots slot }, Except.ok ())

/-- Model of `Session.stateSet`: create the record with empty slots when
absent, otherwise overwrite only the state field. -/
def stateSet (r : RedisState) (chatID userID : Int) (state : SessionState) : RedisState :=
  let (d, e) := sessGet r chatID userID
  if e = false then sessSave r chatID userID (data.mk state.state [])
  else sessSave r chatID userID { d with State := state.state }

/-- Model of `Session.StateGet`. -/
def StateGet (r : RedisState) (chatID userID : Int) : SessionState × Bool :=
  let (d, e) := sessGet r chatID userID
  (SessionState.mk d.State, e)

/-! ## Dispatcher (session.go stateSwitch, telegram.go SendMessage)

Handlers are the bot author's Go functions; they receive the library
context and may read and write the store and send messages, so they are
modelled as arbitrary functions on the whole environment, returning
either their result record or an error (Go `error` values are modelled
as strings). -/

/-- Identity of the session being processed (`Session.chatID/userID`). -/
structure Session where
  chatID : Int
  userID : Int
deriving DecidableEq, Repr

/-- One sent (or edited) Telegram message, with the id Telegram reports. -/
structure MessageSent where
  MessageID : Int
  Text : String
deriving DecidableEq, Repr

/-- Environment of a processing cycle: the shared store, the log of
messages sent so far, and the counter Telegram draws fresh ids from. -/
structure Env where
  rs : RedisState
  sent : List MessageSent
  nextMsgID : Int
deriving Repr

/-- Button description (`Button`, the fields used by `stateSwitch`). -/
structure Button where
  Text : String
  Identifier : String
deriving DecidableEq, Repr

/-- Result record of a state handler (`StateHandlerRes`). -/
structure StateHandlerRes where
  Message : String
  Buttons : List (List Button)
  NextState : SessionState
  StickMessage : Bool

/-- Result record of a message handler (`MessageHandlerRes`). -/
structure MessageHandlerRes where
  NextState : SessionState

/-- Result record of a callback handler (`CallbackHandlerRes`). -/
structure CallbackHandlerRes where
  NextState : SessionState

/-- Result record of the error handler (`ErrorHandlerRes`). -/
structure ErrorHandlerRes where
  NextState : SessionState

/-- Options of a message to send (`SendMessageData`, the fields used). -/
structure SendMessageData where
  Message : String
  Buttons : List (List Button)
  ButtonState : SessionState

/-- Type of state handlers. -/
def StateHandlerFn : Type := Env → Env × Except String StateHandlerRes

/-- Type of message handlers. -/
def MessageHandlerFn : Type := Env → Env × Except String MessageHandlerRes

/-- Type of callback handlers. -/
def CallbackHandlerFn : Type := Env → String → Env × Except String CallbackHandlerRes

/-- Type of sent handlers (`SentHandler`): may fail with an error. -/
def SentHandlerFn : Type := Env → List MessageSent → Env × Option String

/-- Type of the error handler (`Description.ErrorHandler`). -/
def ErrorHandlerFn : Type := Env → String → Env × Except String ErrorHandlerRes

/-- State description (`State`): the four optional handlers. -/
structure State where
  StateHandler : Option StateHandlerFn
  MessageHandler : Option MessageHandlerFn
  CallbackHandler : Option CallbackHandlerFn
  SentHandler : Option SentHandlerFn

/-- Bot description (`Description`, the parts `stateSwitch` uses): the
declared states table and the optional error handler. -/
structure Description where
  States : List (SessionState × State)
  ErrorHandler : Option ErrorHandlerFn

/-- The error value `ErrDescriptionStateMissing`. -/
def errDescriptionStateMissing : String :=
  "session state not defined in bot description"

/-- Model of `Telegram.SendMessage`: `messageID = 0` sends a new message
(Telegram assigns the next fresh id), `messageID ≠ 0` edits the message
with that id.  Returns the sent-message descriptors like the Go method. -/
def SendMessage (env : Env) (chatID : Int) (messageID : Int) (msgData : SendMessageData) :
    Env × List MessageSent :=
  if messageID = 0 then
    let m := MessageSent.mk env.nextMsgID msgData.Message
    ({ env with sent := env.sent ++ [m], nextMsgID := env.nextMsgID + 1 }, [m])
  else
    let m := MessageSent.mk messageID msgData.Message
    ({ env with sent := env.sent ++ [m] }, [m])

/-- The message-sending block of `stateSwitch` (session.go lines 404-421),
factored out verbatim: if the handler returned a non-empty message, send
it with the computed `mID` and run the sent handler; a sent-handler error
is returned as `some e`. -/
def sendPhase (s : Session) (state : State) (env : Env) (mID : Int)
    (hr : StateHandlerRes) : Env × Option String :=
  if hr.Message.length > 0 then
    let (env1, msgs) :=
      SendMessage env s.chatID mID (SendMessageData.mk hr.Message hr.Buttons hr.NextState)
    match state.SentHandler with
    | Option.none => (env1, Option.none)
    | some sh => sh env1 msgs
  else (env, Option.none)

/-- Model of `Session.stateSwitch` (session.go lines 359-429), with fuel
for the recursion; `none` means the fuel ran out (the Go code is
unbounded).  `Except.ok ()` models a `nil` return, `Except.error` an
error return. -/
def stateSwitch (s : Session) (d : Description) :
    Nat → Env → SessionState → Int → Option (Env × Except String Unit)
  | 0, _, _, _ => Option.none
  | fuel + 1, env, newState, messageID =>
    if newState = sessionBreak then some (env, Except.ok ())
    else if newState = sessionDestroy then
      some ({ env with rs := sessDel env.rs s.chatID s.userID }, Except.ok ())
    else
      match alGet d.States newState with
      | Option.none => some (env, Except.error errDescriptionStateMissing)
      | some state =>
        let env1 := { env with rs := stateSet env.rs s.chatID s.userID newState }
        match state.StateHandler with
        | Option.none => some (env1, Except.ok ())
        | some h =>
          match h env1 with
          | (env2, Except.error e) =>
            match d.ErrorHandler with
            | Option.none => some (env2, Except.error e)
            | some eh =>
              match eh env2 e with
              | (env3, Except.error e2) => some (env3, Except.error e2)
              | (env3, Except.ok r) => stateSwitch s d fuel env3 r.NextState 0
          | (env2, Except.ok hr) =>
            let mID := if hr.StickMessage = true then messageID else 0
            match sendPhase s state env2 mID hr with
            | (env3, some e) => some (env3, Except.error e)
            | (env3, Option.none) =>
              if (state.MessageHandler).isSome then some (env3, Except.ok ())
              else stateSwitch s d fuel env3 hr.NextState mID

/-! ## Shared concrete sample values (used by witnesses and counterexamples) -/

/-- The empty store. -/
def rsEmpty : RedisState := RedisState.mk [] [] []

/-- A store holding one session record for identity `(1, 2)`. -/
def rsOneSess : RedisState :=
  RedisState.mk [((1, 2), data.mk "user:start" [])] [] []

/-- A concrete gob codec for naturals: encode as a singleton byte list. -/
def natCodec : Codec Nat := Codec.mk (fun n => [n]) (fun b => b.head?)

/-! ## Claims about the session store -/

/-- C7: a slot operation on an identity with no persisted session record
fails with the "session does not exist" error, leaves the store
untouched, and in particular creates no session record; only an existing
record makes a slot operation succeed. -/
theorem slots_require_session {α : Type} (r : RedisState) (chatID userID : Int)
    (cd : Codec α) (slot : String) (v : α)
    (h : alGet r.sess (chatID, userID) = Option.none) :
    SlotSave r chatID userID cd slot v = (r, Except.error "session does not exist") ∧
    SlotGet r chatID userID cd slot = Except.error "session does not exist" ∧
    SlotDel r chatID userID slot = (r, Except.error "session does not exist") := by
  refine ⟨?_, ?_, ?_⟩ <;> simp [SlotSave, SlotGet, SlotDel, sessGet, h]

/-- Witness for C7 at a concrete empty store. -/
theorem slots_require_session_w :
    SlotSave rsEmpty 1 2 natCodec "x" 5 = (rsEmpty, Except.error "session does not exist") ∧
    SlotGet rsEmpty 1 2 natCodec "x" = Except.error "session does not exist" ∧
    SlotDel rsEmpty 1 2 "x" = (rsEmpty, Except.error "session does not exist") :=
  slots_require_session rsEmpty 1 2 natCodec "x" 5 rfl

/-- C8: with an existing session record, saving a value into a slot and
reading the slot back returns the value (decoded, with the exists flag),
and deleting the slot and reading it back reports absence. -/
theorem slot_roundtrip {α : Type} (r : RedisState) (chatID userID : Int)
    (cd : Codec α) (slot : String) (v : α) (d : data)
    (hex : alGet r.sess (chatID, userID) = some d)
    (hrt : cd.dec (cd.enc v) = some v) :
    SlotGet (SlotSave r chatID userID cd slot v).1 chatID userID cd slot =
      Except.ok (some v) ∧
    SlotGet (SlotDel r chatID userID slot).1 chatID userID cd slot =
      Except.ok Option.none := by
  constructor
  · simp [SlotSave, SlotGet, sessGet, sessSave, hex, alGet_alSet_self, hrt]
  · simp [SlotDel, SlotGet, sessGet, sessSave, hex, alGet_alSet_self, alGet_alDel_self]

/-- Witness for C8 at a concrete store with one record. -/
theorem slot_roundtrip_w :
    SlotGet (SlotSave rsOneSess 1 2 natCodec "x" 5).1 1 2 natCodec "x" =
      Except.ok (some 5) ∧
    SlotGet (SlotDel rsOneSess 1 2 "x").1 1 2 natCodec "x" = Except.ok Option.none :=
  slot_roundtrip rsOneSess 1 2 natCodec "x" 5 (data.mk "user:start" []) rfl rfl

/-- Slot map an identity's record carries before a `stateSet`: empty when
the record is absent, the existing slots otherwise. -/
def priorSlots (r : RedisState) (chatID userID : Int) : List (String × Bytes) :=
  match alGet r.sess (chatID, userID) with
  | Option.none => []
  | some d => d.Slots

/-- C9: `stateSet` creates the record with the given state and an empty
slot map when none exists, and otherwise overwrites only the state field,
keeping the existing slot map. -/
theorem stateSet_spec (r : RedisState) (chatID userID : Int) (st : SessionState) :
    stateSet r chatID userID st =
      { r with
        sess := alSet r.sess (chatID, userID) (data.mk st.state (priorSlots r chatID userID)) } := by
  unfold stateSet sessGet sessSave priorSlots
  cases h : alGet r.sess (chatID, userID) <;> simp [h]

/-! ## Claims about stateSwitch -/

/-- C4: `stateSwitch` matches the reserved terminal states before any
state-description lookup: the break state returns immediately with no
action, the destroy state destroys the session and stops, and any other
state with no entry in the declared states table fails with
`ErrDescriptionStateMissing` instead of silently doing nothing. -/
theorem stateSwitch_terminals (s : Session) (d : Description) (env : Env)
    (ns : SessionState) (mid : Int) (fuel : Nat) :
    stateSwitch s d (fuel + 1) env sessionBreak mid = some (env, Except.ok ()) ∧
    stateSwitch s d (fuel + 1) env sessionDestroy mid =
      some ({ env with rs := sessDel env.rs s.chatID s.userID }, Except.ok ()) ∧
    (ns ≠ sessionBreak → ns ≠ sessionDestroy → alGet d.States ns = Option.none →
      stateSwitch s d (fuel + 1) env ns mid =
        some (env, Except.error errDescriptionStateMissing)) := by
  refine ⟨?_, ?_, fun h1 h2 h3 => ?_⟩
  · simp [stateSwitch]
  · have hne : sessionDestroy ≠ sessionBreak := by decide
    simp [stateSwitch, hne]
  · simp [stateSwitch, h1, h2, h3]

/-- Witness for C4 at a concrete session, store and (empty) description. -/
theorem stateSwitch_terminals_w :
    stateSwitch (Session.mk 1 2) (Description.mk [] Option.none) 1
        (Env.mk rsOneSess [] 1) sessionBreak 0 =
      some (Env.mk rsOneSess [] 1, Except.ok ()) ∧
    stateSwitch (Session.mk 1 2) (Description.mk [] Option.none) 1
        (Env.mk rsOneSess [] 1) sessionDestroy 0 =
      some ({ Env.mk rsOneSess [] 1 with rs := sessDel rsOneSess 1 2 }, Except.ok ()) ∧
    stateSwitch (Session.mk 1 2) (Description.mk [] Option.none) 1
        (Env.mk rsOneSess [] 1) (SessState "w") 0 =
      some (Env.mk rsOneSess [] 1, Except.error errDescriptionStateMissing) := by
  have h := stateSwitch_terminals (Session.mk 1 2) (Description.mk [] Option.none)
    (Env.mk rsOneSess [] 1) (SessState "w") 0 0
  exact ⟨h.1, h.2.1, h.2.2 (by decide) (by decide) rfl⟩

/-- C5: when the target state declares a message handler, `stateSwitch`
stops right after entering the state and running the send phase; the
state handler's returned next-state is never entered, whatever it is. -/
theorem stateSwitch_messageHandler_stops (s : Session) (d : Description) (fuel : Nat)
    (env : Env) (ns : SessionState) (mid : Int) (st : State) (h : StateHandlerFn)
    (env2 : Env) (hr : StateHandlerRes)
    (hns1 : ns ≠ sessionBreak) (hns2 : ns ≠ sessionDestroy)
    (hlook : alGet d.States ns = some st)
    (hsh : st.StateHandler = some h)
    (hrun : h { env with rs := stateSet env.rs s.chatID s.userID ns } = (env2, Except.ok hr))
    (hmh : (st.MessageHandler).isSome) :
    stateSwitch s d (fuel + 1) env ns mid =
      some ((sendPhase s st env2 (if hr.StickMessage = true then mid else 0) hr).1,
        match (sendPhase s st env2 (if hr.StickMessage = true then mid else 0) hr).2 with
        | some e => Except.error e
        | Option.none => Except.ok ()) := by
  simp only [stateSwitch, if_neg hns1, if_neg hns2, hlook, hsh, hrun]
  cases hsp : sendPhase s st env2 (if hr.StickMessage = true then mid else 0) hr with
  | mk env3 o =>
    cases o with
    | none => simp [hsp, hmh]
    | some e => simp [hsp]

/-- State used by the C5 witness: has both a state handler and a message
handler; its state handler asks to advance to an undeclared state. -/
def stC5 : State :=
  State.mk
    (some (fun env => (env, Except.ok (StateHandlerRes.mk "hi" [] (SessState "undeclared") false))))
    (some (fun env => (env, Except.ok (MessageHandlerRes.mk sessionBreak))))
    Option.none Option.none

/-- Description used by the C5 witness. -/
def dC5 : Description := Description.mk [(SessState "a", stC5)] Option.none

/-- Witness for C5: the run stops with the message sent and no attempt to
enter the undeclared next-state (which would have failed). -/
theorem stateSwitch_messageHandler_stops_w :
    stateSwitch (Session.mk 1 2) dC5 1 (Env.mk rsEmpty [] 7) (SessState "a") 0 =
      some ((sendPhase (Session.mk 1 2) stC5
              { Env.mk rsEmpty [] 7 with rs := stateSet rsEmpty 1 2 (SessState "a") } 0
              (StateHandlerRes.mk "hi" [] (SessState "undeclared") false)).1,
        Except.ok ()) := by
  have h := stateSwitch_messageHandler_stops (Session.mk 1 2) dC5 0
    (Env.mk rsEmpty [] 7) (SessState "a") 0 stC5
    (fun env => (env, Except.ok (StateHandlerRes.mk "hi" [] (SessState "undeclared") false)))
    { Env.mk rsEmpty [] 7 with rs := stateSet rsEmpty 1 2 (SessState "a") }
    (StateHandlerRes.mk "hi" [] (SessState "undeclared") false)
    (by decide) (by decide) rfl rfl rfl rfl
  exact h.trans (by rfl)

/-- C10: a user state made by `SessState` carries the `user:` prefix, so
it can never equal the reserved break state (empty string) or the
reserved destroy state (`internal:destroy`); consequently `stateSwitch`
on a user state never takes a terminal branch — when the name is
undeclared it reaches the table lookup and fails there. -/
theorem SessState_not_terminal (n : String) (s : Session) (d : Description) (env : Env)
    (mid : Int) (fuel : Nat) :
    SessState n ≠ sessionBreak ∧ SessState n ≠ sessionDestroy ∧
    (alGet d.States (SessState n) = Option.none →
      stateSwitch s d (fuel + 1) env (SessState n) mid =
        some (env, Except.error errDescriptionStateMissing)) := by
  have h1 : SessState n ≠ sessionBreak := by
    intro h
    have hd := congrArg String.data (congrArg SessionState.state h)
    rw [SessState, sessionBreak] at hd
    simp only [String.data_append] at hd
    exact absurd (List.append_eq_nil.mp hd).1 (by decide)
  have h2 : SessState n ≠ sessionDestroy := by
    intro h
    have hd := congrArg String.data (congrArg SessionState.state h)
    rw [SessState, sessionDestroy] at hd
    simp only [String.data_append, List.cons_append] at hd
    exact absurd (List.cons.inj hd).1 (by decide)
  exact ⟨h1, h2, fun h3 => by simp [stateSwitch, h1, h2, h3]⟩

/-- Witness for C10 at a concrete user state and empty description. -/
theorem SessState_not_terminal_w :
    SessState "menu" ≠ sessionBreak ∧ SessState "menu" ≠ sessionDestroy ∧
    stateSwitch (Session.mk 1 2) (Description.mk [] Option.none) 1 (Env.mk rsEmpty [] 1)
        (SessState "menu") 0 =
      some (Env.mk rsEmpty [] 1, Except.error errDescriptionStateMissing) := by
  have h := SessState_not_terminal "menu" (Session.mk 1 2) (Description.mk [] Option.none)
    (Env.mk rsEmpty [] 1) 0 0
  exact ⟨h.1, h.2.1, h.2.2 rfl⟩

/-- State used by the C6 runs: sends "x" without stick and advances to
the user state `b`. -/
def stC6a : State :=
  State.mk
    (some (fun env => (env, Except.ok (StateHandlerRes.mk "x" [] (SessState "b") false))))
    Option.none Option.none Option.none

/-- State used by the C6 runs: sends "y" with stick requested and then
returns the break state. -/
def stC6b : State :=
  State.mk
    (some (fun env => (env, Except.ok (StateHandlerRes.mk "y" [] sessionBreak true))))
    Option.none Option.none Option.none

/-- Description used by the C6 runs. -/
def dC6 : Description :=
  Description.mk [(SessState "a", stC6a), (SessState "b", stC6b)] Option.none

/-- Counterexample to C6 as stated.  State `a` auto-advances after
sending a fresh message (id 7, the next id Telegram assigns).  Were the
recursive call given "the id of the message just sent", state `b` — which
requests stick — would edit message 7 and the log would show ids
`[7, 7]`.  Instead the code passes `mID`, which is 0 because `a` did not
request stick, so `b` sends a new message and the log shows ids
`[7, 8]`: the id of a freshly sent message is never handed to the
recursion. -/
theorem stateSwitch_autoAdvance_cex :
    (stateSwitch (Session.mk 1 2) dC6 5 (Env.mk rsEmpty [] 7) (SessState "a") 0).map
        (fun p => (p.1.sent.map MessageSent.MessageID, p.2)) =
      some ([7, 8], Except.ok ()) ∧
    ¬ ((7 : Int) :: [8] = 7 :: [7]) := by
  refine ⟨rfl, by decide⟩

/-- C6 (amended): when the target state auto-advances (state handler
succeeded, no message handler declared), `stateSwitch` recurses with the
handler's returned next-state and with the prior message id when the
handler requested stick and 0 otherwise — the id of a newly sent message
is not propagated; a chain of stick states therefore keeps editing one
and the same message id, and a handler returning break makes the
recursion stop with no further action. -/
theorem stateSwitch_autoAdvance (s : Session) (d : Description) (fuel : Nat)
    (env : Env) (ns : SessionState) (mid : Int) (st : State) (h : StateHandlerFn)
    (env2 env3 : Env) (hr : StateHandlerRes)
    (hns1 : ns ≠ sessionBreak) (hns2 : ns ≠ sessionDestroy)
    (hlook : alGet d.States ns = some st)
    (hsh : st.StateHandler = some h)
    (hrun : h { env with rs := stateSet env.rs s.chatID s.userID ns } = (env2, Except.ok hr))
    (hmh : st.MessageHandler = Option.none)
    (hsp : sendPhase s st env2 (if hr.StickMessage = true then mid else 0) hr =
      (env3, Option.none)) :
    stateSwitch s d (fuel + 1) env ns mid =
      stateSwitch s d fuel env3 hr.NextState (if hr.StickMessage = true then mid else 0) ∧
    (hr.NextState = sessionBreak → 0 < fuel →
      stateSwitch s d (fuel + 1) env ns mid = some (env3, Except.ok ())) := by
  have hstep : stateSwitch s d (fuel + 1) env ns mid =
      stateSwitch s d fuel env3 hr.NextState (if hr.StickMessage = true then mid else 0) := by
    simp only [stateSwitch, if_neg hns1, if_neg hns2, hlook, hsh, hrun, hsp, hmh,
      Option.isSome_none, Bool.false_eq_true, if_false]
  refine ⟨hstep, fun hbr hf => ?_⟩
  rw [hstep, hbr]
  obtain ⟨f2, rfl⟩ : ∃ f2, fuel = f2 + 1 := ⟨fuel - 1, by omega⟩
  simp [stateSwitch]

/-- Witness for C6 (amended): the same two-state run, stepped once with
the theorem — state `a`'s recursion receives next-state `b` and message
id 0 (stick was not requested). -/
theorem stateSwitch_autoAdvance_w :
    stateSwitch (Session.mk 1 2) dC6 5 (Env.mk rsEmpty [] 7) (SessState "a") 0 =
      stateSwitch (Session.mk 1 2) dC6 4
        (sendPhase (Session.mk 1 2) stC6a
          { Env.mk rsEmpty [] 7 with rs := stateSet rsEmpty 1 2 (SessState "a") } 0
          (StateHandlerRes.mk "x" [] (SessState "b") false)).1
        (SessState "b") 0 := by
  have h := stateSwitch_autoAdvance (Session.mk 1 2) dC6 4 (Env.mk rsEmpty [] 7)
    (SessState "a") 0 stC6a
    (fun env => (env, Except.ok (StateHandlerRes.mk "x" [] (SessState "b") false)))
    { Env.mk rsEmpty [] 7 with rs := stateSet rsEmpty 1 2 (SessState "a") }
    (sendPhase (Session.mk 1 2) stC6a
      { Env.mk rsEmpty [] 7 with rs := stateSet rsEmpty 1 2 (SessState "a") } 0
      (StateHandlerRes.mk "x" [] (SessState "b") false)).1
    (StateHandlerRes.mk "x" [] (SessState "b") false)
    (by decide) (by decide) rfl rfl rfl rfl (by rfl)
  exact h.1

/-! ## Claims about the event chain builder -/

/-- A message update from identity A = chat 1, user 1. -/
def msgFromA : Update :=
  Update.mk (some (Message.mk 10 (MsgUser.mk 1 "alice") (MsgChat.mk 1) "hello")) Option.none

/-- A message update from identity B = chat 2, user 2. -/
def msgFromB : Update :=
  Update.mk (some (Message.mk 11 (MsgUser.mk 2 "bob") (MsgChat.mk 2) "world")) Option.none

/-- Counterexample to C3 as stated: the current `UpdateChain.add` filters
only on the update kind and never compares conversation identities, so
for `[msg(A), msg(B)]` with different identities both messages land in
the chain — its length is 2, not 1.  (The legacy variant of `add`, which
received the chain's chat and user id, did drop foreign identities; the
current one takes only the update list.) -/
theorem UpdateChain_add_identity_cex :
    ((UpdateChain.mk UpdateType.none []).add [msgFromA, msgFromB]).updates.length = 2 ∧
    updateIDsGet msgFromA ≠ updateIDsGet msgFromB ∧
    ¬ ((UpdateChain.mk UpdateType.none []).add [msgFromA, msgFromB]).updates.length = 1 := by
  refine ⟨rfl, by decide, by decide⟩

/-- C3 (amended): once the chain's kind is established, `UpdateChain.add`
includes a subsequent event iff the event is classifiable (not of unknown
kind) and its kind equals the chain's kind; the conversation identity is
not examined by the builder (identity uniformity comes from the
per-identity queue an update list is drained from), so `[msg(A), msg(B)]`
with different identities builds a chain holding both events. -/
theorem UpdateChain_add_kind_filter (uc : UpdateChain) (u : Update)
    (h : uc.updateType ≠ UpdateType.none) :
    UpdateChain.addElt uc u =
      (if updateTypeEltGet u = uc.updateType ∧ updateTypeEltGet u ≠ UpdateType.unknown
       then { uc with updates := uc.updates ++ [u] }
       else uc) ∧
    ((UpdateChain.mk UpdateType.none []).add [msgFromA, msgFromB]).updates =
      [msgFromA, msgFromB] := by
  refine ⟨?_, rfl⟩
  unfold UpdateChain.addElt
  by_cases ht : updateTypeEltGet u = UpdateType.unknown
  · simp [ht]
  · by_cases heq : updateTypeEltGet u = uc.updateType
    · simp [ht, heq, h]
    · simp only [if_neg ht, if_neg h, if_false]
      have : uc.updateType ≠ updateTypeEltGet u := fun hh => heq hh.symm
      simp [this, heq, ht, h]

/-- Witness for C3 (amended) on a message-kind chain and the two concrete
updates of different identities. -/
theorem UpdateChain_add_kind_filter_w :
    UpdateChain.addElt (UpdateChain.mk UpdateType.message [msgFromA]) msgFromB =
      (if updateTypeEltGet msgFromB = UpdateType.message ∧
          updateTypeEltGet msgFromB ≠ UpdateType.unknown
       then { UpdateChain.mk UpdateType.message [msgFromA] with
              updates := [msgFromA] ++ [msgFromB] }
       else UpdateChain.mk UpdateType.message [msgFromA]) ∧
    ((UpdateChain.mk UpdateType.none []).add [msgFromA, msgFromB]).updates =
      [msgFromA, msgFromB] :=
  UpdateChain_add_kind_filter (UpdateChain.mk UpdateType.message [msgFromA]) msgFromB
    (by decide)

/-! ## Claims about the queue -/

/-- Helper: a scan whose every ready snapshot entry has already lost its
meta key (claimed elsewhere) walks the whole snapshot and returns the
empty chain, leaving the store as it was. -/
theorem chainGetLoop_skip_all (now : Int) :
    ∀ (qm : List queueMeta) (r : RedisState),
    (∀ m ∈ qm, now > m.waitTill → alGet r.meta (m.chatID, m.userID) = Option.none) →
    chainGetLoop qm r now = Except.ok (UpdateChain.mk UpdateType.none [], r) := by
  intro qm
  induction qm with
  | nil => intro r _; rfl
  | cons m rest ih =>
    intro r h
    by_cases hrdy : now > m.waitTill
    · have habs := h m (List.mem_cons_self m rest) hrdy
      have hdel : alDel r.meta (m.chatID, m.userID) = r.meta :=
        alDel_of_alGet_none _ _ habs
      simp only [chainGetLoop, if_pos hrdy, queueMetaDel, habs, Option.isSome_none,
        Bool.false_eq_true, if_false, if_pos rfl, hdel]
      exact ih r (fun m2 hm2 => h m2 (List.mem_cons_of_mem _ hm2))
    · simp only [chainGetLoop, if_neg hrdy]
      exact ih r (fun m2 hm2 => h m2 (List.mem_cons_of_mem _ hm2))

/-- C1: in the scan of `queue.chainGet`, a ready entry whose meta deletion
reports 0 keys (a lost claim race) is skipped and the scan continues
unchanged, with no error; a ready entry whose deletion reports a key
wins, and the scan drains that identity's update buffer and returns it as
the claimed chain; and a scan with no ready or winnable entry returns the
empty chain and no error. -/
theorem chainGet_claim_protocol (m : queueMeta) (rest qm : List queueMeta)
    (r : RedisState) (now : Int) :
    (now > m.waitTill → alGet r.meta (m.chatID, m.userID) = Option.none →
      chainGetLoop (m :: rest) r now = chainGetLoop rest r now) ∧
    (now > m.waitTill → (alGet r.meta (m.chatID, m.userID)).isSome →
      chainGetLoop (m :: rest) r now =
        Except.ok
          (UpdateChain.add (UpdateChain.mk UpdateType.none [])
             ((alGet r.updates (m.chatID, m.userID)).getD []),
           { r with meta := alDel r.meta (m.chatID, m.userID),
                    updates := alDel r.updates (m.chatID, m.userID) })) ∧
    ((∀ m2 ∈ qm, now > m2.waitTill → alGet r.meta (m2.chatID, m2.userID) = Option.none) →
      chainGetLoop qm r now = Except.ok (UpdateChain.mk UpdateType.none [], r)) ∧
    ((∀ p ∈ r.meta, ¬ now > p.2) →
      chainGet r now = Except.ok (UpdateChain.mk UpdateType.none [], r)) := by
  refine ⟨fun hrdy habs => ?_, fun hrdy hin => ?_, fun h => ?_, fun h => ?_⟩
  · have hdel : alDel r.meta (m.chatID, m.userID) = r.meta :=
      alDel_of_alGet_none _ _ habs
    simp only [chainGetLoop, if_pos hrdy, queueMetaDel, habs, Option.isSome_none,
      Bool.false_eq_true, if_false, hdel]
    simp
  · have h1 : ((1 : Int) = 0) = False := by simp
    simp only [chainGetLoop, if_pos hrdy, queueMetaDel, hin, if_true, h1, if_false,
      queueUpdatesGet]
  · exact chainGetLoop_skip_all now qm r h
  · refine chainGetLoop_skip_all now (queueMetasGet r) r ?_
    intro m2 hm2 hrdy2
    rcases List.mem_map.mp hm2 with ⟨p, hp, hmk⟩
    refine absurd ?_ (h p hp)
    rw [← hmk] at hrdy2
    exact hrdy2

/-- A store used by the C1 witness: identity `(1, 2)` has a meta that
became ready at time 100 and a one-update buffer. -/
def rsC1 : RedisState :=
  RedisState.mk [] [((1, 2), 100)] [((1, 2), [msgFromA])]

/-- Witness for C1: at time 200 a ready-but-absent entry `(3, 4)` is
skipped (lost race), the present entry `(1, 2)` is claimed with its
buffer, and a store with nothing ready returns the empty chain. -/
theorem chainGet_claim_protocol_w :
    chainGetLoop [queueMeta.mk 3 4 50] rsC1 200 =
      chainGetLoop [] rsC1 200 ∧
    chainGetLoop [queueMeta.mk 1 2 100] rsC1 200 =
      Except.ok
        (UpdateChain.add (UpdateChain.mk UpdateType.none [])
           ((alGet rsC1.updates (1, 2)).getD []),
         { rsC1 with meta := alDel rsC1.meta (1, 2),
                     updates := alDel rsC1.updates (1, 2) }) ∧
    chainGet rsC1 50 = Except.ok (UpdateChain.mk UpdateType.none [], rsC1) := by
  have ha := chainGet_claim_protocol (queueMeta.mk 3 4 50) [] [] rsC1 200
  have hb := chainGet_claim_protocol (queueMeta.mk 1 2 100) [] [] rsC1 200
  have hc := chainGet_claim_protocol (queueMeta.mk 1 2 100) [] [] rsC1 50
  exact ⟨ha.1 (by decide) rfl, hb.2.1 (by decide) rfl, hc.2.2.2 (by decide)⟩

/-- Helper: a scan whose snapshot holds no ready entry for the identity
`(c, u)` never touches that identity's meta or buffer, whatever else it
claims. -/
theorem chainGetLoop_preserves (c u now : Int) :
    ∀ (qm : List queueMeta) (r r2 : RedisState) (uc : UpdateChain),
    (∀ m ∈ qm, m.chatID = c → m.userID = u → ¬ now > m.waitTill) →
    chainGetLoop qm r now = Except.ok (uc, r2) →
    alGet r2.meta (c, u) = alGet r.meta (c, u) ∧
    alGet r2.updates (c, u) = alGet r.updates (c, u) := by
  intro qm
  induction qm with
  | nil =>
    intro r r2 uc _ he
    simp only [chainGetLoop, Except.ok.injEq, Prod.mk.injEq] at he
    rw [← he.2]
    exact ⟨rfl, rfl⟩
  | cons m rest ih =>
    intro r r2 uc h he
    by_cases hrdy : now > m.waitTill
    · have hkey : (c, u) ≠ (m.chatID, m.userID) := by
        intro hk
        have hc : m.chatID = c := congrArg Prod.fst hk.symm
        have hu : m.userID = u := congrArg Prod.snd hk.symm
        exact h m (List.mem_cons_self m rest) hc hu hrdy
      by_cases hin : (alGet r.meta (m.chatID, m.userID)).isSome
      · have h1 : ((1 : Int) = 0) = False := by simp
        simp only [chainGetLoop, if_pos hrdy, queueMetaDel, hin, if_true, h1, if_false,
          queueUpdatesGet, Except.ok.injEq, Prod.mk.injEq] at he
        rw [← he.2]
        exact ⟨alGet_alDel_ne _ _ _ hkey, alGet_alDel_ne _ _ _ hkey⟩
      · have habs : alGet r.meta (m.chatID, m.userID) = Option.none :=
          Option.not_isSome_iff_eq_none.mp (by simpa using hin)
        simp only [chainGetLoop, if_pos hrdy, queueMetaDel, habs, Option.isSome_none,
          Bool.false_eq_true, if_false, if_pos rfl] at he
        have hrec := ih { r with meta := alDel r.meta (m.chatID, m.userID) } r2 uc
          (fun m2 hm2 => h m2 (List.mem_cons_of_mem _ hm2)) he
        exact ⟨hrec.1.trans (alGet_alDel_ne _ _ _ hkey), hrec.2⟩
    · simp only [chainGetLoop, if_neg hrdy] at he
      exact ih r r2 uc (fun m2 hm2 => h m2 (List.mem_cons_of_mem _ hm2)) he

/-- C2: every `queue.add` for an identity unconditionally overwrites that
identity's meta with (call time + debounce window), so after the last of
a sequence of calls the meta equals last-call-time + window; and
`queue.chainGet` never claims an identity whose meta has not yet passed —
its meta and its buffer are left untouched by the whole scan. -/
theorem debounce_protocol (c u : Int) :
    (∀ (r : RedisState) (waitInterval : Int) (evs : List (Int × Update))
       (tl : Int) (ul : Update),
      alGet ((evs ++ [(tl, ul)]).foldl
          (fun st e => queueAdd st c u e.1 waitInterval e.2) r).meta (c, u) =
        some (tl + waitInterval)) ∧
    (∀ (r r2 : RedisState) (now : Int) (uc : UpdateChain),
      (∀ p ∈ r.meta, p.1 = (c, u) → ¬ now > p.2) →
      chainGet r now = Except.ok (uc, r2) →
      alGet r2.meta (c, u) = alGet r.meta (c, u) ∧
      alGet r2.updates (c, u) = alGet r.updates (c, u)) := by
  constructor
  · intro r waitInterval evs tl ul
    rw [List.foldl_append]
    simp only [List.foldl_cons, List.foldl_nil, queueAdd, queueUpdateAdd, queueMetaAdd]
    exact alGet_alSet_self _ _ _
  · intro r r2 now uc h he
    refine chainGetLoop_preserves c u now (queueMetasGet r) r r2 uc ?_ he
    intro m hm hc hu
    rcases List.mem_map.mp hm with ⟨p, hp, hmk⟩
    have hp1 : p.1 = (c, u) := by
      have h1 : p.1.1 = c := by rw [← hc, ← hmk]
      have h2 : p.1.2 = u := by rw [← hu, ← hmk]
      rw [← h1, ← h2]
    have := h p hp hp1
    rw [← hmk]
    exact this

/-- Witness for C2: two enqueues at times 5 and 9 with window 10 leave
the meta at 19, and a scan at time 15 (before 19) claims nothing — the
meta and the buffer of the identity survive the scan. -/
theorem debounce_protocol_w :
    alGet (([((5 : Int), msgFromA)] ++ [((9 : Int), msgFromB)]).foldl
        (fun st e => queueAdd st 1 2 e.1 10 e.2) rsEmpty).meta (1, 2) =
      some (9 + 10) ∧
    alGet ((queueAdd (queueAdd rsEmpty 1 2 5 10 msgFromA) 1 2 9 10 msgFromB).meta) (1, 2) =
      some 19 ∧
    (alGet rsC1.meta (1, 2) = alGet rsC1.meta (1, 2) ∧
     alGet rsC1.updates (1, 2) = alGet rsC1.updates (1, 2)) := by
  have ha := (debounce_protocol 1 2).1 rsEmpty 10 [((5 : Int), msgFromA)] 9 msgFromB
  have hb := (debounce_protocol 1 2).2 rsC1 rsC1 15 (UpdateChain.mk UpdateType.none [])
    (by decide) (by rfl)
  exact ⟨ha, by rfl, hb⟩

end Tg
